import Mathlib

/-!
Verification of the BLE_Serial bridging core: a shallow embedding of the
subscription registries (the serial `COMPort` and the Windows GATT
characteristic notification source), the serial-port poll loop, the
timeout-bounded asynchronous wait adapter, and the bridge teardown
sequence, together with theorems settling the specification claims.

Bytes are modelled as `Nat` payload values; the byte content is opaque to
all of the code under study.
-/

namespace BLESerial

/-- A byte of tunneled payload (opaque to the bridging core). -/
abbrev Byte := Nat

/-! ## Serial port (`COMPort`, src/src/com.cpp and the Windows backend)

The poll thread spawned by `COMPort::Subscribe` is modelled by an explicit
status.  `noThread` is a default-constructed `std::thread` member
(`joinable()` is false); `running` is the thread executing its `for (;;)`
loop; `waiting` is the thread blocked in `m_condition.wait(lock)` inside
the `m_callbacks.empty()` branch; `exited` is a thread whose function has
returned but that has not been joined (`joinable()` is still true). -/

inductive ThreadStatus where
  | noThread
  | running
  | waiting
  | exited
  deriving DecidableEq, Repr

/-- `m_subscriberThread.joinable()`: true unless the member is a
default-constructed (or already joined) `std::thread`. -/
def ThreadStatus.joinable : ThreadStatus → Bool
  | .noThread => false
  | _ => true

/-- State of a `COMPort` object: the registered callbacks (identified by
the label handed out at registration time, in registration order), a
fresh-label counter for naming listeners, the `m_exiting` flag, and the
poll thread's status. -/
structure COMPortState where
  callbacks : List Nat
  nextLabel : Nat
  exiting : Bool
  thread : ThreadStatus
  deriving DecidableEq, Repr

/-- Effect of `m_condition.notify_all()` on the poll thread: a thread
blocked in `m_condition.wait(lock)` wakes up and, per the loop body
(`if (m_callbacks.empty()) { m_condition.wait(lock); break; }`),
immediately executes `break` and exits.  A thread in any other state is
unaffected (a notification with no waiter is lost). -/
def notifyAll : ThreadStatus → ThreadStatus
  | .waiting => .exited
  | t => t

/-- Run the poll thread until it blocks or terminates, given the flag and
callback state it observes: a running thread returns when `m_exiting` is
set, blocks in `m_condition.wait` when the callback list is empty, and
otherwise keeps polling. -/
def settle (exiting : Bool) (callbacks : List Nat) : ThreadStatus → ThreadStatus
  | .running =>
      if exiting then .exited
      else if callbacks.isEmpty then .waiting
      else .running
  | t => t

/-- `COMPort::Subscribe`: appends the listener to `m_callbacks`, calls
`m_condition.notify_all()`, spawns the poll thread when
`m_subscriberThread` is not joinable, and returns `m_callbacks.size() - 1`.
The returned state is observed after the poll thread reaches its next
blocking or terminal point. -/
def comSubscribe (s : COMPortState) : COMPortState × Nat :=
  let cbs := s.callbacks ++ [s.nextLabel]
  let t1 := notifyAll s.thread
  let t2 := if t1.joinable then t1 else .running
  (⟨cbs, s.nextLabel + 1, s.exiting, settle s.exiting cbs t2⟩, cbs.length - 1)

/-- `COMPort::Unsubscribe(id)`: `m_callbacks.erase(m_callbacks.begin() + id)`
followed by `m_condition.notify_all()`.  `none` marks the case the C++
leaves undefined: `id` at or past the vector's end, where the erase
indexes past the end.  The returned state is observed after the poll
thread reaches its next blocking or terminal point. -/
def comUnsubscribe (s : COMPortState) (id : Nat) : Option COMPortState :=
  if id < s.callbacks.length then
    let cbs := s.callbacks.eraseIdx id
    some ⟨cbs, s.nextLabel, s.exiting, settle s.exiting cbs (notifyAll s.thread)⟩
  else
    none

/-- `COMPort::UnsubscribeAll`: sets `m_exiting = true`, clears
`m_callbacks`, calls `notify_all`, and joins the poll thread when it is
joinable.  The woken (or next-iteration) thread observes `m_exiting` and
returns, so after the join the thread member is no longer joinable.
`m_exiting` is never reset. -/
def comUnsubscribeAll (s : COMPortState) : COMPortState :=
  ⟨[], s.nextLabel, true, .noThread⟩

/-- Outcome of one `ReadFile` call made by `COMPort::Read`: whether the
OS call succeeded, the bytes it placed in the buffer, and the reported
read count. -/
structure ReadFileOutcome where
  ok : Bool
  buffer : List Byte
  bytesRead : Nat
  deriving DecidableEq, Repr

/-- `COMPort::Read` (bluetooth.hpp): calls `ReadFile` and returns the
reported byte count.  The OS call's success flag is discarded — the
function has no failure path. -/
def comRead (r : ReadFileOutcome) : Nat :=
  r.bytesRead

/-- The action one iteration of the poll loop takes (the loop body in
`COMPort::Subscribe`).  The loop has exactly these four outcomes; no
branch reports an error to anyone. -/
inductive LoopAction where
  | exitThread
  | waitBreak
  | sleepRetry
  | deliver
  deriving DecidableEq, Repr

/-- Branch structure of one poll-loop iteration: return when `m_exiting`;
wait (then break) when `m_callbacks` is empty; sleep for the refresh
interval and retry when the read count is zero; otherwise deliver. -/
def pollLoopAction (exiting : Bool) (callbacksEmpty : Bool) (readCount : Nat) : LoopAction :=
  if exiting then .exitThread
  else if callbacksEmpty then .waitBreak
  else if readCount = 0 then .sleepRetry
  else .deliver

/-- A delivery event: this listener label was invoked with this chunk. -/
abbrev DeliveryEvent := Nat × List Byte

/-- One iteration of the poll loop, as the invocation events it produces:
nothing unless a live (running, not exiting) thread with registered
callbacks reads a positive count, in which case
`std::vector<uint8_t> data { buffer, buffer + read }` is passed to every
callback in `m_callbacks`, in order. -/
def pollLoopIter (s : COMPortState) (r : ReadFileOutcome) : List DeliveryEvent :=
  if s.thread ≠ .running then []
  else if s.exiting then []
  else if s.callbacks.isEmpty then []
  else if comRead r = 0 then []
  else s.callbacks.map (fun c => (c, r.buffer.take (comRead r)))

/-! ## Characteristic notification source
(`WindowsBluetoothGattCharacteristic`, src/unnamed/part_000) -/

/-- The client characteristic configuration descriptor value last
successfully written: `notify` is the producer enabled, `disabled` is
`GattClientCharacteristicConfigurationDescriptorValue::None`. -/
inductive Cccd where
  | notify
  | disabled
  deriving DecidableEq, Repr

/-- A descriptor write issued to the device (observable producer
enable/disable operation). -/
inductive DescAction where
  | enable
  | disable
  deriving DecidableEq, Repr

/-- State of a `WindowsBluetoothGattCharacteristic`: the `m_subscribers`
token list (ValueChanged registration tokens, in registration order), the
descriptor state, and a fresh-token counter. -/
structure CharState where
  subscribers : List Nat
  cccd : Cccd
  nextToken : Nat
  deriving DecidableEq, Repr

/-- Result of one characteristic registry operation: the object state
after the operation (mutations are not rolled back when an exception is
thrown), the returned value or thrown exception, and the descriptor
writes the operation issued. -/
structure CharOpResult (α : Type) where
  state : CharState
  result : Except Unit α
  writes : List DescAction
  deriving Repr

/-- `WindowsBluetoothGattCharacteristic::Subscribe`: when `m_subscribers`
is empty, first writes the Notify descriptor value (the parameter
`descOk` says whether that write reports `Success`); a failed write
throws before the `ValueChanged` handler is registered, leaving the
object untouched.  Otherwise registers the handler, appends its token,
and returns `m_subscribers.size() - 1`. -/
def charSubscribe (descOk : Bool) (s : CharState) : CharOpResult Nat :=
  if s.subscribers.isEmpty then
    if descOk then
      { state := ⟨s.subscribers ++ [s.nextToken], .notify, s.nextToken + 1⟩,
        result := .ok s.subscribers.length,
        writes := [.enable] }
    else
      { state := s, result := .error (), writes := [.enable] }
  else
    { state := ⟨s.subscribers ++ [s.nextToken], s.cccd, s.nextToken + 1⟩,
      result := .ok s.subscribers.length,
      writes := [] }

/-- `WindowsBluetoothGattCharacteristic::Unsubscribe(id)`: deregisters
`m_subscribers[id]` from ValueChanged and erases it; if the list is then
empty, writes the None descriptor value (throwing when the write fails —
the erase is already done and is not rolled back).  `none` marks the case
the C++ leaves undefined: `id` at or past the vector's end, where
`m_subscribers[id]` indexes past the end. -/
def charUnsubscribe (descOk : Bool) (s : CharState) (id : Nat) : Option (CharOpResult Unit) :=
  if id < s.subscribers.length then
    let subs := s.subscribers.eraseIdx id
    some
      (if subs.isEmpty then
        if descOk then
          { state := ⟨subs, .disabled, s.nextToken⟩, result := .ok (), writes := [.disable] }
        else
          { state := ⟨subs, s.cccd, s.nextToken⟩, result := .error (), writes := [.disable] }
      else
        { state := ⟨subs, s.cccd, s.nextToken⟩, result := .ok (), writes := [] })
  else
    none

/-- `WindowsBluetoothGattCharacteristic::UnsubscribeAll`: deregisters
every token, clears the list, and unconditionally writes the None
descriptor value — also when the list was already empty.  A failed write
throws after the clear. -/
def charUnsubscribeAll (descOk : Bool) (s : CharState) : CharOpResult Unit :=
  if descOk then
    { state := ⟨[], .disabled, s.nextToken⟩, result := .ok (), writes := [.disable] }
  else
    { state := ⟨[], s.cccd, s.nextToken⟩, result := .error (), writes := [.disable] }

/-- The registry invariant of the specification: a non-empty listener
sequence has the producer enabled, an empty one has it disabled. -/
def charInv (s : CharState) : Prop :=
  (s.subscribers = [] → s.cccd = .disabled) ∧ (s.subscribers ≠ [] → s.cccd = .notify)

instance (s : CharState) : Decidable (charInv s) := by
  unfold charInv
  infer_instance

/-! ## Timeout-bounded wait adapter (`WaitWithTimeout`, src/unnamed/part_000) -/

/-- WinRT `AsyncStatus` as observed when the wait loop exits: the loop
leaves only when the status is no longer `Started` or the deadline has
passed, so `started` at that point means the deadline elapsed while the
operation was still pending. -/
inductive AsyncStatus where
  | started
  | completed
  | error
  | canceled
  deriving DecidableEq, Repr

/-- An asynchronous operation at the moment the wait loop exits: its
status, the value `GetResults()` would return, and the platform error
code and message carried by `winrt::hresult_error` when it failed. -/
structure AsyncOp (R : Type) where
  finalStatus : AsyncStatus
  results : R
  errorCode : Int
  errorMessage : String

/-- An exception thrown by the Bluetooth layer: the raw platform
`winrt::hresult_error` (code and message), or a `BluetoothException`
carrying a message. -/
inductive BTExn where
  | hresult (code : Int) (message : String)
  | bluetooth (message : String)
  deriving DecidableEq, Repr

/-- The `switch (task.Status())` at the end of `WaitWithTimeout`:
`Completed` returns `GetResults()`, `Error` throws
`winrt::hresult_error(task.ErrorCode())`, `Canceled` throws
`BluetoothException("Operation cancelled")`, and the remaining case
(still `Started`, so the deadline elapsed) throws
`BluetoothException("Operation timed out")`. -/
def waitWithTimeout {R : Type} (op : AsyncOp R) : Except BTExn R :=
  match op.finalStatus with
  | .completed => .ok op.results
  | .error => .error (.hresult op.errorCode op.errorMessage)
  | .canceled => .error (.bluetooth "Operation cancelled")
  | .started => .error (.bluetooth "Operation timed out")

/-- The `WINRT_CALL_END` macro: a `winrt::hresult_error` escaping the
call is rethrown as a `BluetoothException` whose message embeds the
platform code and message. -/
def winrtCallEnd {α : Type} : Except BTExn α → Except BTExn α
  | .error (.hresult code message) =>
      .error (.bluetooth
        ("Bluetooth error. Code: " ++ toString code ++ ". Message: " ++ message))
  | e => e

/-! ## Bridge teardown (`Connect`, src/unnamed/part_001) -/

/-- The four teardown statements at the end of `Connect`, in source
order: `port.UnsubscribeAll(); port.Close();
characteristic->UnsubscribeAll(); connection->Close();`. -/
inductive TeardownStep where
  | portUnsubAll
  | portClose
  | charUnsubAll
  | connClose
  deriving DecidableEq, Repr

/-- The teardown statements in their fixed source order. -/
def teardownSeq : List TeardownStep := [.portUnsubAll, .portClose, .charUnsubAll, .connClose]

/-- Execute a statement sequence in which `fails` says which statements
throw: the statements are plain sequential calls with no surrounding
per-step handler, so the first throw aborts the rest (the exception
propagates to the handlers in `main`).  Returns the statements that were
attempted and whether an exception escaped. -/
def runSteps (fails : TeardownStep → Bool) : List TeardownStep → List TeardownStep × Bool
  | [] => ([], false)
  | st :: rest =>
      if fails st then ([st], true)
      else
        let r := runSteps fails rest
        (st :: r.1, r.2)

/-- The teardown sequence of `Connect` under the failure pattern `fails`. -/
def runTeardown (fails : TeardownStep → Bool) : List TeardownStep × Bool :=
  runSteps fails teardownSeq

/-! ## Theorems settling the claims -/

/-- C1: whenever the poll loop reads a chunk with positive count while
N ≥ 1 listeners are registered, each listener is invoked exactly once
with a byte-identical copy of the chunk, and the invocations occur in
registration order: the event list is exactly the registration list
paired with the chunk, and each label's invocation count equals its
registration count. -/
theorem pollLoop_delivers_to_all_listeners_in_order
    (s : COMPortState) (r : ReadFileOutcome)
    (ht : s.thread = .running) (he : s.exiting = false)
    (hr : 0 < comRead r) (hn : 1 ≤ s.callbacks.length) :
    pollLoopIter s r = s.callbacks.map (fun c => (c, r.buffer.take (comRead r)))
    ∧ ∀ c : Nat, ((pollLoopIter s r).filter (fun e => e.1 = c)).length
        = (s.callbacks.filter (fun x => x = c)).length := by
  have hne : ¬ s.callbacks.isEmpty := by
    cases hcb : s.callbacks with
    | nil => rw [hcb] at hn; exact absurd hn (by decide)
    | cons a l => simp
  have hr0 : comRead r ≠ 0 := Nat.pos_iff_ne_zero.mp hr
  have h1 : pollLoopIter s r
      = s.callbacks.map (fun c => (c, r.buffer.take (comRead r))) := by
    simp [pollLoopIter, ht, he, hne, hr0]
  refine ⟨h1, fun c => ?_⟩
  rw [h1, List.filter_map, List.length_map]
  rfl

/-- Witness for C1 at a concrete state: two listeners, a read of 2 bytes
out of a 3-byte buffer. -/
theorem pollLoop_delivers_witness :
    0 < comRead ⟨true, [7, 8, 9], 2⟩
    ∧ pollLoopIter ⟨[0, 1], 2, false, .running⟩ ⟨true, [7, 8, 9], 2⟩
        = [(0, [7, 8]), (1, [7, 8])] :=
  ⟨by decide,
   (pollLoop_delivers_to_all_listeners_in_order ⟨[0, 1], 2, false, .running⟩
      ⟨true, [7, 8, 9], 2⟩ rfl rfl (by decide) (by decide)).1.trans rfl⟩

/-- C5: when the characteristic registry is empty and the descriptor
enable write fails, `Subscribe` throws and the listener is not
registered — the object state afterwards is exactly the state before. -/
theorem charSubscribe_enable_failure_atomic
    (s : CharState) (h : s.subscribers = []) :
    (charSubscribe false s).result = .error ()
    ∧ (charSubscribe false s).state = s := by
  simp [charSubscribe, h]

/-- Witness for C5 at the empty registry with the producer disabled. -/
theorem charSubscribe_enable_failure_atomic_witness :
    (charSubscribe false ⟨[], .disabled, 0⟩).result = .error ()
    ∧ (charSubscribe false ⟨[], .disabled, 0⟩).state = ⟨[], .disabled, 0⟩ :=
  charSubscribe_enable_failure_atomic ⟨[], .disabled, 0⟩ rfl

/-- C7: the timeout-bounded wait returns exactly one of four outcomes,
determined by the operation's terminal status: the result when it
completed; a platform error, rethrown by `WINRT_CALL_END` as a transport
error carrying the platform code and message, when it failed; a
cancellation error when the platform cancelled it; and a timeout error
when the deadline elapsed while the operation was still `Started`. -/
theorem waitWithTimeout_outcomes {R : Type} (op : AsyncOp R) :
    (op.finalStatus = .completed → waitWithTimeout op = .ok op.results)
    ∧ (op.finalStatus = .error →
        waitWithTimeout op = .error (.hresult op.errorCode op.errorMessage)
        ∧ winrtCallEnd (waitWithTimeout op) = .error (.bluetooth
            ("Bluetooth error. Code: " ++ toString op.errorCode
              ++ ". Message: " ++ op.errorMessage)))
    ∧ (op.finalStatus = .canceled →
        waitWithTimeout op = .error (.bluetooth "Operation cancelled"))
    ∧ (op.finalStatus = .started →
        waitWithTimeout op = .error (.bluetooth "Operation timed out")) := by
  refine ⟨fun h => ?_, fun h => ?_, fun h => ?_, fun h => ?_⟩ <;>
    simp [waitWithTimeout, winrtCallEnd, h]

/-- Witness for C7: one concrete operation per terminal status. -/
theorem waitWithTimeout_outcomes_witness :
    waitWithTimeout (⟨.completed, 42, 0, ""⟩ : AsyncOp Nat) = .ok 42
    ∧ waitWithTimeout (⟨.error, 0, 5, "boom"⟩ : AsyncOp Nat)
        = .error (.hresult 5 "boom")
    ∧ waitWithTimeout (⟨.canceled, 0, 0, ""⟩ : AsyncOp Nat)
        = .error (.bluetooth "Operation cancelled")
    ∧ waitWithTimeout (⟨.started, 0, 0, ""⟩ : AsyncOp Nat)
        = .error (.bluetooth "Operation timed out") :=
  ⟨(waitWithTimeout_outcomes _).1 rfl,
   ((waitWithTimeout_outcomes _).2.1 rfl).1,
   (waitWithTimeout_outcomes _).2.2.1 rfl,
   (waitWithTimeout_outcomes _).2.2.2 rfl⟩

/-- C10: neither `Unsubscribe` validates its argument — for every id at
or past the current listener count, both the serial port's and the
characteristic's `Unsubscribe` index past the end of the listener vector
(the model's undefined-behavior marker `none`) instead of rejecting the
id. -/
theorem unsubscribe_no_bounds_check
    (s : COMPortState) (c : CharState) (id jd : Nat) (descOk : Bool)
    (hs : s.callbacks.length ≤ id) (hc : c.subscribers.length ≤ jd) :
    comUnsubscribe s id = none ∧ charUnsubscribe descOk c jd = none := by
  constructor
  · simp [comUnsubscribe, Nat.not_lt.mpr hs]
  · simp [charUnsubscribe, Nat.not_lt.mpr hc]

/-- Witness for C10: one registered listener on each side, id 1. -/
theorem unsubscribe_no_bounds_check_witness :
    comUnsubscribe ⟨[0], 1, false, .running⟩ 1 = none
    ∧ charUnsubscribe true ⟨[0], .notify, 1⟩ 1 = none :=
  unsubscribe_no_bounds_check ⟨[0], 1, false, .running⟩ ⟨[0], .notify, 1⟩ 1 1 true
    (by decide) (by decide)

/-- C2 counterexample: ids are positions, not stable identifiers.  With
A, B, C registered under ids 0, 1, 2, after `Unsubscribe(1)` removes B,
C's original id 2 indexes past the end of the two-element callback vector
(the undefined-behavior marker `none`) — it does not remove C. -/
theorem unsubscribe_positional_shift_counterexample :
    (comSubscribe (comSubscribe (comSubscribe ⟨[], 0, false, .noThread⟩).1).1).1
      = ⟨[0, 1, 2], 3, false, .running⟩
    ∧ comUnsubscribe ⟨[0, 1, 2], 3, false, .running⟩ 1
        = some ⟨[0, 2], 3, false, .running⟩
    ∧ comUnsubscribe ⟨[0, 2], 3, false, .running⟩ 2 = none := by
  refine ⟨by decide, by decide, by decide⟩

/-- C2 amended: `Unsubscribe(id)` removes the listener at current
position `id`, shifting later ids down.  With A, B, C registered under
ids 0, 1, 2: unsubscribing B at id 1 leaves A and C, who both receive
every subsequent chunk while B receives none; C's original id 2 now
indexes past the end, and C is removed by its current id 1. -/
theorem unsubscribe_removes_at_position
    (r : ReadFileOutcome) (hr : 0 < comRead r) :
    comUnsubscribe ⟨[0, 1, 2], 3, false, .running⟩ 1
      = some ⟨[0, 2], 3, false, .running⟩
    ∧ pollLoopIter ⟨[0, 2], 3, false, .running⟩ r
        = [(0, r.buffer.take (comRead r)), (2, r.buffer.take (comRead r))]
    ∧ comUnsubscribe ⟨[0, 2], 3, false, .running⟩ 2 = none
    ∧ comUnsubscribe ⟨[0, 2], 3, false, .running⟩ 1
        = some ⟨[0], 3, false, .running⟩ := by
  have hr0 : comRead r ≠ 0 := Nat.pos_iff_ne_zero.mp hr
  refine ⟨by decide, ?_, by decide, by decide⟩
  simp [pollLoopIter, hr0]

/-- Witness for C2's amended theorem at a one-byte read. -/
theorem unsubscribe_removes_at_position_witness :
    0 < comRead ⟨true, [9], 1⟩
    ∧ pollLoopIter ⟨[0, 2], 3, false, .running⟩ ⟨true, [9], 1⟩
        = [(0, [9]), (2, [9])] :=
  ⟨by decide,
   ((unsubscribe_removes_at_position ⟨true, [9], 1⟩ (by decide)).2.1).trans rfl⟩

/-- C3 (code defect): the poll thread is not restarted correctly.
Scenario 1 — `Subscribe`, `UnsubscribeAll`, `Subscribe`: `m_exiting` is
never reset, so the freshly spawned thread observes it and exits at once;
the new listener never receives a chunk.  Scenario 2 — `Subscribe`,
`Unsubscribe(0)`, `Subscribe`: after the count drops to zero the thread
blocks in `m_condition.wait` instead of exiting; the next `Subscribe`'s
`notify_all` wakes it, it executes `break` and exits, and `Subscribe` saw
a joinable thread so spawned no replacement — again the new listener
never receives a chunk. -/
theorem comPort_stale_thread_defect :
    (comSubscribe (comUnsubscribeAll (comSubscribe ⟨[], 0, false, .noThread⟩).1)).1
      = ⟨[1], 2, true, .exited⟩
    ∧ (∀ r, pollLoopIter (comSubscribe (comUnsubscribeAll
        (comSubscribe ⟨[], 0, false, .noThread⟩).1)).1 r = [])
    ∧ comUnsubscribe (comSubscribe ⟨[], 0, false, .noThread⟩).1 0
        = some ⟨[], 1, false, .waiting⟩
    ∧ (comSubscribe ⟨[], 1, false, .waiting⟩).1 = ⟨[1], 2, false, .exited⟩
    ∧ (∀ r, pollLoopIter ⟨[1], 2, false, .exited⟩ r = []) := by
  refine ⟨by decide, fun r => rfl, by decide, by decide, fun r => rfl⟩

/-- C4 counterexample: the second `UnsubscribeAll` on the characteristic
issues another descriptor disable write — an observable producer
disable operation, not a no-op. -/
theorem charUnsubscribeAll_twice_writes_counterexample :
    (charUnsubscribeAll true (charUnsubscribeAll true ⟨[0], .notify, 1⟩).state).writes
      = [.disable]
    ∧ ([.disable] : List DescAction) ≠ [] :=
  ⟨rfl, by decide⟩

/-- C4 amended: calling `UnsubscribeAll` twice leaves the same state as
calling it once, with the producer disabled; the serial port's second
call is a true no-op, but the characteristic's second call re-issues the
descriptor disable write. -/
theorem unsubscribeAll_twice_state_idempotent (s : CharState) (p : COMPortState) :
    (charUnsubscribeAll true (charUnsubscribeAll true s).state).state
      = (charUnsubscribeAll true s).state
    ∧ (charUnsubscribeAll true s).state.cccd = .disabled
    ∧ (charUnsubscribeAll true (charUnsubscribeAll true s).state).writes = [.disable]
    ∧ comUnsubscribeAll (comUnsubscribeAll p) = comUnsubscribeAll p :=
  ⟨rfl, rfl, rfl, rfl⟩

/-- C6 counterexample: when the descriptor disable write fails,
`Unsubscribe` has already erased the last listener and the producer stays
enabled — the operation made the sequence empty without disabling the
producer, violating the invariant as stated. -/
theorem charInv_violated_on_disable_failure :
    charUnsubscribe false ⟨[5], .notify, 6⟩ 0
      = some ⟨⟨[], .notify, 6⟩, .error (), [.disable]⟩
    ∧ ¬ charInv ⟨[], .notify, 6⟩ :=
  ⟨rfl, by decide⟩

/-- C6 amended: every `Subscribe` / `Unsubscribe` / `UnsubscribeAll`
whose descriptor writes succeed preserves the registry invariant
(non-empty sequence has the producer enabled, empty sequence has it
disabled); when a disable write fails the listener is already removed
and the producer remains enabled with an empty sequence. -/
theorem charInv_preserved (s : CharState) (h : charInv s) :
    charInv (charSubscribe true s).state
    ∧ charInv (charUnsubscribeAll true s).state
    ∧ ∀ id r, charUnsubscribe true s id = some r → charInv r.state := by
  obtain ⟨h1, h2⟩ := h
  refine ⟨?_, ?_, ?_⟩
  · rcases s with ⟨subs, cc, tok⟩
    cases subs with
    | nil => simp [charSubscribe, charInv]
    | cons a l =>
        have hcc : cc = Cccd.notify := h2 (by simp)
        subst hcc
        simp [charSubscribe, charInv]
  · simp [charUnsubscribeAll, charInv]
  · intro id r hr
    rcases s with ⟨subs, cc, tok⟩
    by_cases hid : id < subs.length
    · rw [charUnsubscribe, if_pos hid] at hr
      injection hr with hr
      subst hr
      by_cases hemp : (subs.eraseIdx id).isEmpty
      · have hnil : subs.eraseIdx id = [] := List.isEmpty_iff.mp hemp
        simp [charInv, hemp, hnil]
      · have hne : subs ≠ [] :=
          List.length_pos.mp (Nat.lt_of_le_of_lt (Nat.zero_le id) hid)
        have hcc : cc = Cccd.notify := h2 hne
        subst hcc
        have hnil : ¬ subs.eraseIdx id = [] := fun hn =>
          hemp (List.isEmpty_iff.mpr hn)
        simp [charInv, hemp, hnil]
    · rw [charUnsubscribe, if_neg hid] at hr
      exact absurd hr (by simp)

/-- Witness for C6's amended theorem: one listener with the producer
enabled; `Subscribe` and `Unsubscribe(0)` both preserve the invariant. -/
theorem charInv_preserved_witness :
    charInv ⟨[3], .notify, 4⟩
    ∧ charInv (charSubscribe true ⟨[3], .notify, 4⟩).state
    ∧ charInv (⟨⟨[], .disabled, 4⟩, .ok (), [.disable]⟩ : CharOpResult Unit).state :=
  ⟨by decide,
   (charInv_preserved ⟨[3], .notify, 4⟩ (by decide)).1,
   (charInv_preserved ⟨[3], .notify, 4⟩ (by decide)).2.2 0
     ⟨⟨[], .disabled, 4⟩, .ok (), [.disable]⟩ rfl⟩

/-- C8 (code defect): `COMPort::Read` discards the OS call's success
flag, so a hard read failure is indistinguishable from a normal empty
read — the poll loop takes the same sleep-and-retry action for both, and
no branch of the loop escalates anything (the loop's action type has no
error outcome at all). -/
theorem comRead_failure_swallowed
    (r : ReadFileOutcome) (hok : r.ok = false) (hn : r.bytesRead = 0) :
    comRead r = 0
    ∧ pollLoopAction false false (comRead r) = .sleepRetry
    ∧ pollLoopAction false false (comRead r)
        = pollLoopAction false false (comRead ⟨true, r.buffer, 0⟩) := by
  refine ⟨hn, ?_, ?_⟩ <;> simp [pollLoopAction, comRead, hn]

/-- Witness for C8 at a failed `ReadFile` reporting zero bytes. -/
theorem comRead_failure_swallowed_witness :
    comRead ⟨false, [], 0⟩ = 0
    ∧ pollLoopAction false false (comRead ⟨false, [], 0⟩) = .sleepRetry :=
  ⟨(comRead_failure_swallowed ⟨false, [], 0⟩ rfl rfl).1,
   (comRead_failure_swallowed ⟨false, [], 0⟩ rfl rfl).2.1⟩

/-- C9 counterexample: when the characteristic's `UnsubscribeAll` throws,
the final teardown step (closing the connection) is never attempted —
the exception aborts the remaining statements. -/
theorem teardown_abort_counterexample :
    (runTeardown (fun st => match st with | .charUnsubAll => true | _ => false)).1
      = [.portUnsubAll, .portClose, .charUnsubAll]
    ∧ TeardownStep.connClose
        ∉ (runTeardown (fun st => match st with | .charUnsubAll => true | _ => false)).1
    ∧ (runTeardown (fun st => match st with | .charUnsubAll => true | _ => false)).2
        = true := by
  refine ⟨by decide, by decide, by decide⟩

/-- C9 amended: the four teardown statements run in their fixed source
order, and all four execute when no step fails; but a failure aborts the
remaining steps (the executed statements are always an initial segment
of the sequence), and in particular a throw from the characteristic's
`UnsubscribeAll` stops the connection close, the error propagating to
the handlers in `main`. -/
theorem teardown_fixed_order_abort (fails : TeardownStep → Bool) :
    ((∀ st, fails st = false) → runTeardown fails = (teardownSeq, false))
    ∧ (∃ n, (runTeardown fails).1 = teardownSeq.take n)
    ∧ (fails .charUnsubAll = true → fails .portUnsubAll = false →
        fails .portClose = false →
        (runTeardown fails).1 = [.portUnsubAll, .portClose, .charUnsubAll]
        ∧ (runTeardown fails).2 = true) := by
  refine ⟨fun hall => ?_, ?_, fun hc hp1 hp2 => ?_⟩
  · simp [runTeardown, runSteps, teardownSeq, hall]
  · cases h1 : fails .portUnsubAll
    · cases h2 : fails .portClose
      · cases h3 : fails .charUnsubAll
        · cases h4 : fails .connClose
          · exact ⟨4, by simp [runTeardown, runSteps, teardownSeq, h1, h2, h3, h4]⟩
          · exact ⟨4, by simp [runTeardown, runSteps, teardownSeq, h1, h2, h3, h4]⟩
        · exact ⟨3, by simp [runTeardown, runSteps, teardownSeq, h1, h2, h3]⟩
      · exact ⟨2, by simp [runTeardown, runSteps, teardownSeq, h1, h2]⟩
    · exact ⟨1, by simp [runTeardown, runSteps, teardownSeq, h1]⟩
  · constructor <;> simp [runTeardown, runSteps, teardownSeq, hc, hp1, hp2]

/-- Witness for C9's amended theorem: the all-succeed pattern and the
pattern where only the characteristic's `UnsubscribeAll` throws. -/
theorem teardown_fixed_order_abort_witness :
    runTeardown (fun _ => false) = (teardownSeq, false)
    ∧ (runTeardown (fun st => match st with | .charUnsubAll => true | _ => false)).1
        = [.portUnsubAll, .portClose, .charUnsubAll] :=
  ⟨(teardown_fixed_order_abort (fun _ => false)).1 (fun _ => rfl),
   ((teardown_fixed_order_abort
      (fun st => match st with | .charUnsubAll => true | _ => false)).2.2
      rfl rfl rfl).1⟩

end BLESerial
